import Mathlib

/-!
Shallow embedding of the persistence core of the sriram-coaters-erp
application (SQLite-backed CRUD stores in `billing_db.py`, `billing.py`,
`attendance_db.py`, `ot_db.py`, `worker_db.py`, with the schema from
`database_utils.py`), together with theorems settling the specification
claims about invoice numbering, upsert behaviour, cascade deletion,
duplicate detection, patch updates and range queries.

Tables are modelled as lists of rows; SQL NULL is modelled by `Option`;
machine text ordering (the SQLite BINARY collation, byte order, which on
the ASCII ISO dates and invoice numbers used by the application agrees
with the codepoint order on `String`) is the `LinearOrder String` order.
Each store call returns its result value together with the post state.
-/

namespace SriramERP

/-- A nullable SQL TEXT cell: `none` models SQL NULL. -/
abbrev Val := Option String

/-- A nullable SQL REAL cell (REAL values are only stored and compared for
equality by the code relevant to the claims, never manipulated as floats,
so `Rat` is an adequate carrier). -/
abbrev RVal := Option Rat

/-! ### Invoice data model (`database_utils.init_db`)

`invoice_headers(invoice_no TEXT PRIMARY KEY, date TEXT NOT NULL,
customer_name TEXT NOT NULL, total_amount REAL, gst_percentage REAL,
payment_method TEXT, grn_date_from TEXT, grn_date_to TEXT, po_number TEXT)`.

`invoice_line_items(id AUTOINCREMENT, invoice_no TEXT NOT NULL,
line_no INTEGER NOT NULL, item_description, part_no, hsn_code,
quantity REAL NOT NULL, rate REAL NOT NULL, amount REAL NOT NULL,
FOREIGN KEY(invoice_no) REFERENCES invoice_headers ON DELETE CASCADE,
UNIQUE(invoice_no, line_no))`.

The surrogate `id` column of `invoice_line_items` plays no role in any
operation or claim and is omitted; NOT NULL numeric columns are carried
as plain (non optional) fields. -/

structure InvoiceHeader where
  invoice_no : String
  date : Val
  customer_name : Val
  total_amount : RVal
  gst_percentage : RVal
  payment_method : Val
  grn_date_from : Val
  grn_date_to : Val
  po_number : Val
deriving DecidableEq, Repr

structure LineItem where
  invoice_no : String
  line_no : Nat
  item_description : Val
  part_no : Val
  hsn_code : Val
  quantity : Rat
  rate : Rat
  amount : Rat
deriving DecidableEq, Repr

/-- The billing portion of the database file. -/
structure BillingDB where
  headers : List InvoiceHeader
  items : List LineItem
deriving DecidableEq, Repr

/-- Result of `billing_db.add_invoice_header`: `True` / `"DUPLICATE"` / `False`. -/
inductive AddHeaderResult where
  | ok
  | duplicate
  | failure
deriving DecidableEq, Repr

/-- The condition under which the INSERT of `billing_db.add_invoice_header`
raises `sqlite3.IntegrityError`: the PRIMARY KEY on `invoice_no` is violated
(a row with the same `invoice_no` already exists), or a NOT NULL column
(`date`, `customer_name`) receives NULL — `add_invoice_header` fills every
missing key of its input dict with `None`, so both cases arise in practice.
The source maps every `IntegrityError` to the `"DUPLICATE"` return value. -/
def headerIntegrityViolation (tbl : List InvoiceHeader) (h : InvoiceHeader) : Bool :=
  tbl.any (fun r => r.invoice_no == h.invoice_no) || h.date.isNone || h.customer_name.isNone

/-- `billing_db.add_invoice_header`: INSERT into `invoice_headers`;
`IntegrityError` rolls back and returns `"DUPLICATE"`, success commits. -/
def add_invoice_header (tbl : List InvoiceHeader) (h : InvoiceHeader) :
    AddHeaderResult × List InvoiceHeader :=
  if headerIntegrityViolation tbl h then (.duplicate, tbl) else (.ok, tbl ++ [h])

/-- One-by-one insertion performed by `cursor.executemany` inside
`billing_db.add_invoice_line_items_batch`: each row must respect
`UNIQUE(invoice_no, line_no)` against the rows already present (stored rows
and earlier rows of the same batch); the first violation aborts the batch. -/
def insertItemsSeq (tbl : List LineItem) : List LineItem → Option (List LineItem)
  | [] => some tbl
  | it :: rest =>
    if tbl.any (fun r => r.invoice_no == it.invoice_no && r.line_no == it.line_no)
    then none
    else insertItemsSeq (tbl ++ [it]) rest

/-- `billing_db.add_invoice_line_items_batch`: atomic batch insert; on any
error the transaction is rolled back and `False` is returned. -/
def add_invoice_line_items_batch (db : BillingDB) (its : List LineItem) :
    Bool × BillingDB :=
  match insertItemsSeq db.items its with
  | some tbl => (true, { db with items := tbl })
  | none => (false, db)

/-- `billing_db.delete_invoice_header`: this function DOES execute
`PRAGMA foreign_keys = ON` before the DELETE, so the `ON DELETE CASCADE`
declared on `invoice_line_items` fires and the line items go with the
header. Returns `True` whenever no exception occurs, even if no row matched. -/
def delete_invoice_header (db : BillingDB) (inv : String) : Bool × BillingDB :=
  (true,
   { headers := db.headers.filter (fun r => !(r.invoice_no == inv)),
     items := db.items.filter (fun r => !(r.invoice_no == inv)) })

/-- `billing_db.get_invoice_header_by_no`: SELECT by primary key. -/
def get_invoice_header_by_no (db : BillingDB) (inv : String) : Option InvoiceHeader :=
  db.headers.find? (fun r => r.invoice_no == inv)

/-- `billing_db.get_line_items_for_invoice`: SELECT ... WHERE invoice_no = ?
ORDER BY line_no. -/
def get_line_items_for_invoice (db : BillingDB) (inv : String) : List LineItem :=
  (db.items.filter (fun r => r.invoice_no == inv)).mergeSort
    (fun a b => a.line_no ≤ b.line_no)

/-- A partial update record for `billing_db.update_invoice_header`: the outer
`Option` is key presence in the dict (`none` = key absent, not part of the
SET clause), the inner value is the SQL value to store (which may be NULL). -/
structure HeaderPatch where
  invoice_no : Option Val
  date : Option Val
  customer_name : Option Val
  total_amount : Option RVal
  gst_percentage : Option RVal
  payment_method : Option Val
  grn_date_from : Option Val
  grn_date_to : Option Val
  po_number : Option Val
deriving DecidableEq, Repr

/-- Number of keys present in the patch other than `invoice_no` (the source
explicitly deletes an `invoice_no` key from the SET clause before building
the UPDATE statement). -/
def patchSetCount (p : HeaderPatch) : Nat :=
  (if p.date.isSome then 1 else 0) +
  (if p.customer_name.isSome then 1 else 0) +
  (if p.total_amount.isSome then 1 else 0) +
  (if p.gst_percentage.isSome then 1 else 0) +
  (if p.payment_method.isSome then 1 else 0) +
  (if p.grn_date_from.isSome then 1 else 0) +
  (if p.grn_date_to.isSome then 1 else 0) +
  (if p.po_number.isSome then 1 else 0)

/-- Effect of the dynamically built SET clause on one matching row: every
column whose key is present receives the supplied value, every other column
keeps its stored value; `invoice_no` is never in the SET clause. -/
def applyPatch (p : HeaderPatch) (r : InvoiceHeader) : InvoiceHeader :=
  { invoice_no := r.invoice_no,
    date := p.date.getD r.date,
    customer_name := p.customer_name.getD r.customer_name,
    total_amount := p.total_amount.getD r.total_amount,
    gst_percentage := p.gst_percentage.getD r.gst_percentage,
    payment_method := p.payment_method.getD r.payment_method,
    grn_date_from := p.grn_date_from.getD r.grn_date_from,
    grn_date_to := p.grn_date_to.getD r.grn_date_to,
    po_number := p.po_number.getD r.po_number }

/-- `billing_db.update_invoice_header`.
With no key to set (beyond a possible `invoice_no` key, which is stripped),
the generated SQL has an empty SET clause, raising `OperationalError`,
caught and turned into `False` with no state change. If a row matches and
the patch writes NULL into a NOT NULL column (`date`, `customer_name`),
the UPDATE raises `IntegrityError`, is rolled back, and returns `False`.
Otherwise the matching rows are patched and the result is
`cursor.rowcount > 0`. -/
def update_invoice_header (db : BillingDB) (inv : String) (p : HeaderPatch) :
    Bool × BillingDB :=
  if patchSetCount p = 0 then (false, db)
  else if db.headers.any (fun r => r.invoice_no == inv) &&
          (p.date == some none || p.customer_name == some none) then (false, db)
  else
    (decide (0 < db.headers.countP (fun r => r.invoice_no == inv)),
     { db with headers :=
        db.headers.map (fun r => if r.invoice_no == inv then applyPatch p r else r) })

/-! ### Invoice number inference (`billing_db.get_last_invoice_no`) -/

/-- Numeric value of a decimal digit run (the empty run gives 0). -/
def digitsToNat (cs : List Char) : Nat :=
  cs.foldl (fun acc c => 10 * acc + (c.toNat - 48)) 0

/-- SQLite `CAST(expr AS INTEGER)` applied to a TEXT value: leading
whitespace is skipped, then the longest prefix that parses as an optionally
signed decimal integer is taken; a value with no such prefix casts to `0`.
In particular the cast NEVER fails with an error, and a value such as
`"INV005"` casts to `0`. -/
def sqliteCastToInt (s : String) : Int :=
  let cs := s.toList.dropWhile (fun c => c == ' ' || c == '\t' || c == '\n' || c == '\r')
  match cs with
  | '-' :: rest => -(Int.ofNat (digitsToNat (rest.takeWhile Char.isDigit)))
  | '+' :: rest => Int.ofNat (digitsToNat (rest.takeWhile Char.isDigit))
  | _ => Int.ofNat (digitsToNat (cs.takeWhile Char.isDigit))

/-- `billing_db.get_last_invoice_no`.
Primary attempt: `SELECT MAX(CAST(invoice_no AS INTEGER))`; its result is
NULL only when the table is empty, because the SQLite cast always yields an
integer. When non NULL, the Python code returns `str(result[0])`. Only on a
NULL aggregate does the code raise and fall back to the lexicographic
`SELECT MAX(invoice_no) ... WHERE LENGTH(invoice_no) > 0`, which over an
empty table is NULL again, giving `None`. -/
def get_last_invoice_no (tbl : List InvoiceHeader) : Option String :=
  match tbl.map (fun r => sqliteCastToInt r.invoice_no) with
  | x :: xs => some (toString (xs.foldl max x))
  | [] =>
    match (tbl.filter (fun r => 0 < r.invoice_no.length)).map (fun r => r.invoice_no) with
    | s :: ss => some (ss.foldl max s)
    | [] => none

/-- Scan of `billing.BillingPage._generate_next_invoice_no` locating the
first digit of the previous invoice number: everything before the first
digit is the prefix, everything from the first digit on is the candidate
numeric part (empty second component means no digit was found). -/
def splitAtFirstDigit : List Char → List Char × List Char
  | [] => ([], [])
  | c :: cs =>
    if c.isDigit then ([], c :: cs)
    else
      let r := splitAtFirstDigit cs
      (c :: r.1, r.2)

/-- Python `str.zfill`: left-pad with zeros up to the given width. -/
def zfill (w : Nat) (s : String) : String :=
  if s.length < w then String.mk (List.replicate (w - s.length) '0') ++ s else s

/-- `billing.BillingPage._generate_next_invoice_no`, as a function of the
value returned by `get_last_invoice_no` (modelled for the ASCII invoice
numbers the application uses, on which Python `str.isdigit` coincides with
`Char.isDigit`). A falsy (`None` or empty) previous number gives `"001"`;
a previous number whose portion from the first digit onward is entirely
digits is incremented with the prefix preserved and the numeric part
re-zero-padded to its width; a purely numeric previous number is likewise
incremented and zero-padded; in every other case the fixed fallback
`"001"` is returned. The function is total: it never throws. -/
def generate_next_invoice_no (last : Option String) : String :=
  match last with
  | none => "001"
  | some s =>
    if s.isEmpty then "001"
    else
      let pr := splitAtFirstDigit s.toList
      if !pr.2.isEmpty && pr.2.all Char.isDigit then
        String.mk pr.1 ++ zfill pr.2.length (Nat.repr (digitsToNat pr.2 + 1))
      else if s.toList.all Char.isDigit then
        zfill s.length (Nat.repr (digitsToNat s.toList + 1))
      else "001"

/-! ### Invoice save flow (`billing.BillingPage._create_new_invoice_logic`) -/

inductive SaveInvoiceOutcome where
  | saved
  | duplicateInvoice
  | headerFailed
  | lineItemsFailed
deriving DecidableEq, Repr

/-- The database portion of `billing.BillingPage._create_new_invoice_logic`
(the code after UI validation): insert the header; on `"DUPLICATE"` or
failure show a message and stop with the state unchanged; otherwise stamp
the invoice number onto each line item and batch-insert them; if the batch
fails, compensate by deleting the just-inserted header before returning. -/
def create_new_invoice_logic (db : BillingDB) (h : InvoiceHeader) (its : List LineItem) :
    SaveInvoiceOutcome × BillingDB :=
  match add_invoice_header db.headers h with
  | (.duplicate, _) => (.duplicateInvoice, db)
  | (.failure, _) => (.headerFailed, db)
  | (.ok, headers2) =>
    let db2 : BillingDB := { db with headers := headers2 }
    match add_invoice_line_items_batch db2 (its.map (fun it => { it with invoice_no := h.invoice_no })) with
    | (true, db3) => (.saved, db3)
    | (false, _) => (.lineItemsFailed, (delete_invoice_header db2 h.invoice_no).2)

/-! ### Worker / attendance / overtime data model (`database_utils.init_db`)

`workers(id AUTOINCREMENT, first_name TEXT NOT NULL, last_name, photo_path,
address, contact_number, previous_experience, salary_amount REAL,
salary_frequency, role, joining_date, id_proof_path)`.

`attendance(id AUTOINCREMENT, worker_id NOT NULL, date NOT NULL,
status NOT NULL, punch_in_time, punch_out_time,
FOREIGN KEY(worker_id) REFERENCES workers(id) ON DELETE CASCADE,
UNIQUE(worker_id, date))`.

`overtime(id AUTOINCREMENT, worker_id NOT NULL, date NOT NULL,
ot_hours REAL NOT NULL, ot_rate REAL NOT NULL, ot_amount REAL NOT NULL,
FOREIGN KEY(worker_id) REFERENCES workers(id) ON DELETE CASCADE)`. -/

structure WorkerRow where
  id : Nat
  first_name : Val
  last_name : Val
  photo_path : Val
  address : Val
  contact_number : Val
  previous_experience : Val
  salary_amount : RVal
  salary_frequency : Val
  role : Val
  joining_date : Val
  id_proof_path : Val
deriving DecidableEq, Repr

structure AttRow where
  id : Nat
  worker_id : Nat
  date : String
  status : String
  punch_in_time : Val
  punch_out_time : Val
deriving DecidableEq, Repr

structure OTRow where
  id : Nat
  worker_id : Nat
  date : String
  ot_hours : Rat
  ot_rate : Rat
  ot_amount : Rat
deriving DecidableEq, Repr

/-- The worker-facing portion of the database file. -/
structure ErpDB where
  workers : List WorkerRow
  attendance : List AttRow
  overtime : List OTRow
deriving DecidableEq, Repr

/-- One record of the list passed to `attendance_db.save_attendance_records`
(keys `worker_id`, `date`, `status`, `punch_in_time`, `punch_out_time`). -/
structure AttRecord where
  worker_id : Nat
  date : String
  status : String
  punch_in_time : Val
  punch_out_time : Val
deriving DecidableEq, Repr

/-- The conflict target of the upsert: the `UNIQUE(worker_id, date)`
constraint of the `attendance` table. -/
def attKeyMatch (row : AttRow) (r : AttRecord) : Bool :=
  decide (row.worker_id = r.worker_id ∧ row.date = r.date)

/-- Fresh surrogate id for an inserted attendance row (AUTOINCREMENT:
strictly larger than every id ever used; over a list state, one more than
the running maximum). The id value is irrelevant to every claim. -/
def nextAttId (tbl : List AttRow) : Nat :=
  tbl.foldl (fun m row => max m row.id) 0 + 1

/-- One row of the `executemany` in `attendance_db.save_attendance_records`:
`INSERT INTO attendance ... ON CONFLICT(worker_id, date) DO UPDATE SET
status = excluded.status, punch_in_time = excluded.punch_in_time,
punch_out_time = excluded.punch_out_time`. -/
def upsertAttendance (tbl : List AttRow) (r : AttRecord) : List AttRow :=
  if tbl.any (fun row => attKeyMatch row r) then
    tbl.map (fun row =>
      if attKeyMatch row r then
        { row with status := r.status, punch_in_time := r.punch_in_time,
                   punch_out_time := r.punch_out_time }
      else row)
  else
    tbl ++ [{ id := nextAttId tbl, worker_id := r.worker_id, date := r.date,
              status := r.status, punch_in_time := r.punch_in_time,
              punch_out_time := r.punch_out_time }]

/-- `attendance_db.save_attendance_records`: the whole batch runs in one
transaction and commits; the upsert itself cannot violate a constraint
(the unique key is the conflict target and every NOT NULL column is
supplied), so the call returns `True` with the records applied in order. -/
def save_attendance_records (tbl : List AttRow) (rs : List AttRecord) :
    Bool × List AttRow :=
  (true, rs.foldl upsertAttendance tbl)

/-- `worker_db.delete_worker`: `DELETE FROM workers WHERE id = ?` and
nothing else. The connection this function opens never executes
`PRAGMA foreign_keys = ON`, and SQLite keeps foreign-key enforcement OFF
by default on every new connection, so the `ON DELETE CASCADE` clauses
declared on `attendance` and `overtime` do NOT fire here: only the
`workers` row is removed and the referencing rows stay behind. (Contrast
`delete_invoice_header`, which does execute the pragma first.) -/
def delete_worker (db : ErpDB) (wid : Nat) : Bool × ErpDB :=
  (true, { db with workers := db.workers.filter (fun w => !(w.id == wid)) })

/-! ### Overtime range queries (`ot_db.py`) -/

/-- SQLite TEXT comparison under the default BINARY collation, restricted
to the ASCII ISO dates the application stores, where it coincides with the
lexicographic order on the character lists (and hence with the `String`
linear order, by `String.le_iff_toList_le`). -/
def sqlTextLe (a b : String) : Bool := decide (a.toList ≤ b.toList)

def sqlTextLt (a b : String) : Bool := decide (a.toList < b.toList)

/-- Sort key of `ORDER BY date DESC` in
`ot_db.get_ot_records_for_worker_in_range`. -/
def otDateDescLe (a b : OTRow) : Bool :=
  sqlTextLt b.date a.date || a.date == b.date

/-- Sort key of `ORDER BY date DESC, worker_id` in
`ot_db.get_all_ot_records_in_range`. -/
def otDateDescWorkerLe (a b : OTRow) : Bool :=
  sqlTextLt b.date a.date || (a.date == b.date && a.worker_id ≤ b.worker_id)

/-- `ot_db.get_ot_records_for_worker_in_range`:
`SELECT ... WHERE worker_id = ? AND date BETWEEN ? AND ? ORDER BY date DESC`
(SQLite BETWEEN is inclusive on both bounds). -/
def get_ot_records_for_worker_in_range (tbl : List OTRow) (wid : Nat)
    (startDate endDate : String) : List OTRow :=
  ((tbl.filter (fun r =>
      r.worker_id == wid && sqlTextLe startDate r.date && sqlTextLe r.date endDate)).mergeSort
    otDateDescLe)

/-- `ot_db.get_all_ot_records_in_range`:
`SELECT ... WHERE date BETWEEN ? AND ? ORDER BY date DESC, worker_id`. -/
def get_all_ot_records_in_range (tbl : List OTRow) (startDate endDate : String) :
    List OTRow :=
  ((tbl.filter (fun r =>
      sqlTextLe startDate r.date && sqlTextLe r.date endDate)).mergeSort
    otDateDescWorkerLe)

/-! ### Shared concrete sample data used by closed theorems and witnesses -/

/-- A well-formed invoice header (every NOT NULL column present). -/
def sampleHeader (no : String) : InvoiceHeader :=
  { invoice_no := no, date := some "2024-01-01", customer_name := some "Customer",
    total_amount := none, gst_percentage := none, payment_method := none,
    grn_date_from := none, grn_date_to := none, po_number := none }

/-- A line item as built by the billing form (the save flow stamps the
invoice number on, so the initial value here is irrelevant). -/
def sampleItem (n : Nat) : LineItem :=
  { invoice_no := "", line_no := n, item_description := some "Item",
    part_no := some "P1", hsn_code := some "H1",
    quantity := 1, rate := 50, amount := 50 }

def sampleWorker : WorkerRow :=
  { id := 1, first_name := some "Test", last_name := some "User",
    photo_path := none, address := some "1 Test St", contact_number := none,
    previous_experience := none, salary_amount := some 60000,
    salary_frequency := some "Monthly", role := some "Tester",
    joining_date := some "2024-01-01", id_proof_path := none }

def sampleAttRow : AttRow :=
  { id := 1, worker_id := 1, date := "2024-07-01", status := "Present",
    punch_in_time := some "09:00", punch_out_time := some "17:00" }

def sampleOTRow (i wid : Nat) (d : String) : OTRow :=
  { id := i, worker_id := wid, date := d, ot_hours := 2, ot_rate := 150,
    ot_amount := 300 }

/-! ### Theorems -/

/-- **C10.** Calling `save_attendance_records` with the empty list succeeds
(returns `True`) and leaves the attendance table completely unchanged: an
empty batch is a no-op, not an error. -/
theorem save_attendance_records_empty_batch_noop (tbl : List AttRow) :
    save_attendance_records tbl [] = (true, tbl) := rfl

/-- **C1.** The claim that `get_last_invoice_no` falls back to the
lexicographic maximum when `"INV005"` is among the stored invoice numbers
is false on the code: SQLite `CAST(invoice_no AS INTEGER)` never fails and
casts `"INV005"` to `0`, so `MAX(CAST(...))` over the rows
`"1", "002", "10", "INV005"` is `10` (non NULL) and the numeric path
returns `"10"`, not the lexicographic maximum `"INV005"`. (The second
conjunct shows the part of the claim the code does satisfy: with `"100"`
also present the numeric path yields `"100"`.) The code contradicts its
own docstring and its own inline test, which expects `"INV005"` here. -/
theorem get_last_invoice_no_uses_numeric_cast_on_prefixed_values :
    get_last_invoice_no
      [sampleHeader "1", sampleHeader "002", sampleHeader "10", sampleHeader "INV005"]
      = some "10"
    ∧ get_last_invoice_no
      [sampleHeader "1", sampleHeader "002", sampleHeader "10", sampleHeader "INV005",
       sampleHeader "100"]
      = some "100" := by
  constructor <;> rfl

/-- **C3.** The claim that `delete_worker` cascades to the attendance and
overtime rows of the worker is false on the code: the connection opened by
`worker_db.delete_worker` never executes `PRAGMA foreign_keys = ON`, and
SQLite keeps foreign-key enforcement off by default, so the declared
`ON DELETE CASCADE` rules never fire there. On a state with worker 1, one
attendance row and one overtime row for worker 1, the call reports success
and removes the worker row, yet both referencing rows remain behind. -/
theorem delete_worker_leaves_attendance_and_overtime_rows :
    (delete_worker
        { workers := [sampleWorker], attendance := [sampleAttRow],
          overtime := [sampleOTRow 1 1 "2024-07-20"] } 1).1 = true
    ∧ (delete_worker
        { workers := [sampleWorker], attendance := [sampleAttRow],
          overtime := [sampleOTRow 1 1 "2024-07-20"] } 1).2.workers = []
    ∧ (delete_worker
        { workers := [sampleWorker], attendance := [sampleAttRow],
          overtime := [sampleOTRow 1 1 "2024-07-20"] } 1).2.attendance.filter
        (fun r => r.worker_id == 1) = [sampleAttRow]
    ∧ (delete_worker
        { workers := [sampleWorker], attendance := [sampleAttRow],
          overtime := [sampleOTRow 1 1 "2024-07-20"] } 1).2.overtime.filter
        (fun r => r.worker_id == 1) = [sampleOTRow 1 1 "2024-07-20"] := by
  refine ⟨rfl, ?_, ?_, ?_⟩ <;> decide

/-- After `delete_invoice_header`, no header with the deleted invoice
number can be found. -/
lemma get_header_after_delete (db : BillingDB) (inv : String) :
    get_invoice_header_by_no (delete_invoice_header db inv).2 inv = none := by
  simp only [get_invoice_header_by_no, delete_invoice_header, List.find?_eq_none,
    List.mem_filter]
  intro r hr
  have := hr.2
  simp only [Bool.not_eq_eq_eq_not, Bool.not_true, beq_eq_false_iff_ne] at this
  simp [this]

/-- **C2.** If the header insert succeeds but the line-item batch insert
fails, `_create_new_invoice_logic` compensates by deleting the header it
just inserted, so afterwards `get_invoice_header_by_no` on that invoice
number is absent: no header-only invoice remains. -/
theorem create_invoice_rolls_back_header_on_line_item_failure
    (db : BillingDB) (h : InvoiceHeader) (its : List LineItem)
    (hfail : (create_new_invoice_logic db h its).1 = .lineItemsFailed) :
    get_invoice_header_by_no (create_new_invoice_logic db h its).2 h.invoice_no
      = none := by
  unfold create_new_invoice_logic at hfail ⊢
  by_cases hv : headerIntegrityViolation db.headers h
  · simp [add_invoice_header, hv] at hfail
  · simp only [add_invoice_header, hv, Bool.false_eq_true, if_false] at hfail ⊢
    cases hb : add_invoice_line_items_batch { db with headers := db.headers ++ [h] }
        (its.map (fun it => { it with invoice_no := h.invoice_no })) with
    | mk ok db3 =>
      cases ok with
      | true => simp [hb] at hfail
      | false => simp only [hb]; exact get_header_after_delete _ _

/-- Witness for C2 at a concrete input: an empty database, a well-formed
header, and a batch whose two line items share the same `line_no`, which
violates `UNIQUE(invoice_no, line_no)` and makes the batch fail. -/
theorem create_invoice_rolls_back_header_witness :
    (create_new_invoice_logic { headers := [], items := [] } (sampleHeader "INV1")
        [sampleItem 1, sampleItem 1]).1 = .lineItemsFailed
    ∧ get_invoice_header_by_no
        (create_new_invoice_logic { headers := [], items := [] } (sampleHeader "INV1")
          [sampleItem 1, sampleItem 1]).2 "INV1" = none :=
  ⟨by decide,
   create_invoice_rolls_back_header_on_line_item_failure
     { headers := [], items := [] } (sampleHeader "INV1")
     [sampleItem 1, sampleItem 1] (by decide)⟩

/-- **C9.** For an invoice number with no header row,
`update_invoice_header` returns `False` (zero rows are updated) and the
database state is unchanged: a not-found update is reported as failure,
never as silent success. -/
theorem update_invoice_header_not_found (db : BillingDB) (inv : String)
    (p : HeaderPatch) (habs : ∀ r ∈ db.headers, r.invoice_no ≠ inv) :
    update_invoice_header db inv p = (false, db) := by
  have hany : db.headers.any (fun r => r.invoice_no == inv) = false := by
    simp only [List.any_eq_false, beq_iff_eq]
    exact habs
  have hcount : db.headers.countP (fun r => r.invoice_no == inv) = 0 := by
    rw [List.countP_eq_zero]
    intro r hr
    simpa using habs r hr
  have hmap : db.headers.map
      (fun r => if r.invoice_no == inv then applyPatch p r else r) = db.headers := by
    conv_rhs => rw [← List.map_id db.headers]
    apply List.map_congr_left
    intro r hr
    have hne : (r.invoice_no == inv) = false := by simpa using habs r hr
    simp [hne]
  unfold update_invoice_header
  by_cases h0 : patchSetCount p = 0
  · simp [h0]
  · rw [if_neg h0, hany, Bool.false_and, if_neg Bool.false_ne_true, hcount, hmap]
    rfl

/-- Witness for C9 at a concrete input: a table holding only invoice
`"B"`, updated at the nonexistent invoice number `"A"`. -/
theorem update_invoice_header_not_found_witness :
    update_invoice_header { headers := [sampleHeader "B"], items := [] } "A"
      { invoice_no := none, date := none, customer_name := some (some "X"),
        total_amount := none, gst_percentage := none, payment_method := none,
        grn_date_from := none, grn_date_to := none, po_number := none }
      = (false, { headers := [sampleHeader "B"], items := [] }) :=
  update_invoice_header_not_found _ _ _ (by decide)

/-- A header whose required NOT NULL column `date` is missing: the dict
handed to `add_invoice_header` fills the absent key with `None`. -/
def nullDateHeader : InvoiceHeader :=
  { invoice_no := "INV1", date := none, customer_name := some "Customer",
    total_amount := none, gst_percentage := none, payment_method := none,
    grn_date_from := none, grn_date_to := none, po_number := none }

/-- **C5, counterexample.** `add_invoice_header` does not return the
Duplicate outcome exactly when the supplied invoice number already exists:
on an EMPTY table, inserting a header whose NOT NULL column `date` is null
raises `sqlite3.IntegrityError` (a NOT NULL violation, not a duplicate
key), which the source also maps to `"DUPLICATE"` — even though no header
with invoice number `"INV1"` exists. -/
theorem add_invoice_header_duplicate_on_null_required_column :
    (add_invoice_header [] nullDateHeader).1 = .duplicate
    ∧ nullDateHeader.invoice_no = "INV1"
    ∧ (List.any ([] : List InvoiceHeader)
        fun r => r.invoice_no == nullDateHeader.invoice_no) = false := by
  decide

/-- **C5, amended.** `add_invoice_header` returns Duplicate exactly when
the INSERT violates an integrity constraint: when the supplied invoice_no
already exists, or when a required NOT NULL column (`date`,
`customer_name`) is null. For headers whose required columns are present,
Duplicate is returned iff the invoice_no already exists; and calling it
twice with the same invoice number returns success the first time,
Duplicate the second time, with the stored state after the second attempt
equal to the state after the first call (the first call's values,
unchanged). -/
theorem add_invoice_header_duplicate_spec (tbl : List InvoiceHeader)
    (h1 h2 : InvoiceHeader)
    (hwf1 : h1.date.isSome = true) (hwf2 : h1.customer_name.isSome = true)
    (hfresh : ∀ r ∈ tbl, r.invoice_no ≠ h1.invoice_no)
    (hsame : h2.invoice_no = h1.invoice_no) :
    (add_invoice_header tbl h1).1 = .ok
    ∧ (add_invoice_header tbl h1).2 = tbl ++ [h1]
    ∧ (add_invoice_header (tbl ++ [h1]) h2).1 = .duplicate
    ∧ (add_invoice_header (tbl ++ [h1]) h2).2 = tbl ++ [h1]
    ∧ (∀ h3 : InvoiceHeader, h3.date.isSome = true → h3.customer_name.isSome = true →
        ((add_invoice_header tbl h3).1 = .duplicate
          ↔ ∃ r ∈ tbl, r.invoice_no = h3.invoice_no)) := by
  obtain ⟨dv, hdv⟩ := Option.isSome_iff_exists.mp hwf1
  obtain ⟨cv, hcv⟩ := Option.isSome_iff_exists.mp hwf2
  have hv1 : headerIntegrityViolation tbl h1 = false := by
    simp only [headerIntegrityViolation, hdv, hcv, Option.isNone_some,
      Bool.or_false, List.any_eq_false, beq_iff_eq]
    exact hfresh
  have hv2 : headerIntegrityViolation (tbl ++ [h1]) h2 = true := by
    have hmem : h1 ∈ tbl ++ [h1] := by simp
    have hbeq : (h1.invoice_no == h2.invoice_no) = true := by simp [hsame]
    simp only [headerIntegrityViolation, List.any_eq_true, Bool.or_eq_true]
    exact Or.inl (Or.inl ⟨h1, hmem, hbeq⟩)
  refine ⟨?_, ?_, ?_, ?_, ?_⟩
  · simp [add_invoice_header, hv1]
  · simp [add_invoice_header, hv1]
  · simp [add_invoice_header, hv2]
  · simp [add_invoice_header, hv2]
  · intro h3 h3d h3c
    obtain ⟨d3, hd3⟩ := Option.isSome_iff_exists.mp h3d
    obtain ⟨c3, hc3⟩ := Option.isSome_iff_exists.mp h3c
    constructor
    · intro hdup
      by_cases hv : headerIntegrityViolation tbl h3
      · simp only [headerIntegrityViolation, hd3, hc3, Option.isNone_some,
          Bool.or_false, List.any_eq_true] at hv
        obtain ⟨r, hr, hbeq⟩ := hv
        exact ⟨r, hr, by simpa using hbeq⟩
      · simp [add_invoice_header, hv] at hdup
    · rintro ⟨r, hr, heq⟩
      have hbeq : (r.invoice_no == h3.invoice_no) = true := by simp [heq]
      have hv : headerIntegrityViolation tbl h3 = true := by
        simp only [headerIntegrityViolation, List.any_eq_true, Bool.or_eq_true]
        exact Or.inl (Or.inl ⟨r, hr, hbeq⟩)
      simp [add_invoice_header, hv]

/-- Witness for C5 at a concrete input: inserting the same well-formed
header `"INV1"` twice into an initially empty table. -/
theorem add_invoice_header_duplicate_spec_witness :
    (add_invoice_header [] (sampleHeader "INV1")).1 = .ok
    ∧ (add_invoice_header [] (sampleHeader "INV1")).2 = [] ++ [sampleHeader "INV1"]
    ∧ (add_invoice_header ([] ++ [sampleHeader "INV1"]) (sampleHeader "INV1")).1
        = .duplicate
    ∧ (add_invoice_header ([] ++ [sampleHeader "INV1"]) (sampleHeader "INV1")).2
        = [] ++ [sampleHeader "INV1"] := by
  have hthm := add_invoice_header_duplicate_spec [] (sampleHeader "INV1")
    (sampleHeader "INV1") rfl rfl (by simp) rfl
  exact ⟨hthm.1, hthm.2.1, hthm.2.2.1, hthm.2.2.2.1⟩

/-- A billing database holding the single header `"A"`. -/
def singleHeaderDB : BillingDB := { headers := [sampleHeader "A"], items := [] }

/-- A patch that carries both an `invoice_no` key and a `customer_name`
key (as a caller could supply to `update_invoice_header`). -/
def patchWithInvoiceNo : HeaderPatch :=
  { invoice_no := some (some "B"), date := none,
    customer_name := some (some "X"), total_amount := none,
    gst_percentage := none, payment_method := none, grn_date_from := none,
    grn_date_to := none, po_number := none }

/-- A patch that carries only a `customer_name` key. -/
def patchCustomerX : HeaderPatch :=
  { invoice_no := none, date := none, customer_name := some (some "X"),
    total_amount := none, gst_percentage := none, payment_method := none,
    grn_date_from := none, grn_date_to := none, po_number := none }

/-- **C7, counterexample.** The set of columns updated is NOT always
exactly the set of keys present in the partial record: the source strips
an `invoice_no` key from the SET clause before building the UPDATE. With
stored header `"A"` and the partial record carrying keys
`invoice_no := "B"` and `customer_name := "X"`, the update reports
success, yet no header with invoice number `"B"` exists afterwards — the
header is still stored under `"A"`, with only `customer_name` changed. -/
theorem update_invoice_header_ignores_invoice_no_key :
    (update_invoice_header singleHeaderDB "A" patchWithInvoiceNo).1 = true
    ∧ ((update_invoice_header singleHeaderDB "A" patchWithInvoiceNo).2.headers.any
        (fun r => r.invoice_no == "B")) = false
    ∧ get_invoice_header_by_no
        (update_invoice_header singleHeaderDB "A" patchWithInvoiceNo).2 "A"
        = some { sampleHeader "A" with customer_name := some "X" } := by
  decide

/-- Column-wise specification of a patch update, written from the spec
sentence amended by the counterexample above: every column whose key is
present in the partial record receives the supplied value, every column
whose key is absent keeps its stored value — except `invoice_no`, which is
never changed even when a key for it is supplied. -/
def PatchSpec (p : HeaderPatch) (old new : InvoiceHeader) : Prop :=
  new.invoice_no = old.invoice_no
  ∧ new.date = p.date.getD old.date
  ∧ new.customer_name = p.customer_name.getD old.customer_name
  ∧ new.total_amount = p.total_amount.getD old.total_amount
  ∧ new.gst_percentage = p.gst_percentage.getD old.gst_percentage
  ∧ new.payment_method = p.payment_method.getD old.payment_method
  ∧ new.grn_date_from = p.grn_date_from.getD old.grn_date_from
  ∧ new.grn_date_to = p.grn_date_to.getD old.grn_date_to
  ∧ new.po_number = p.po_number.getD old.po_number

/-- **C7, amended.** A successful `update_invoice_header` changes exactly
the columns whose keys are present in the partial record, except
`invoice_no`, which is never updated even if supplied: the line-item table
is untouched, the header count is unchanged, rows whose invoice number
differs from the key are left exactly as they were, and each matching row
satisfies `PatchSpec` against its prior value. -/
theorem update_invoice_header_patch_spec (db : BillingDB) (inv : String)
    (p : HeaderPatch) (hs : (update_invoice_header db inv p).1 = true) :
    (update_invoice_header db inv p).2.items = db.items
    ∧ (update_invoice_header db inv p).2.headers.length = db.headers.length
    ∧ ∀ (i : Nat) (hi : i < db.headers.length)
        (hj : i < (update_invoice_header db inv p).2.headers.length),
        ((db.headers.get ⟨i, hi⟩).invoice_no ≠ inv →
          (update_invoice_header db inv p).2.headers.get ⟨i, hj⟩
            = db.headers.get ⟨i, hi⟩)
        ∧ ((db.headers.get ⟨i, hi⟩).invoice_no = inv →
          PatchSpec p (db.headers.get ⟨i, hi⟩)
            ((update_invoice_header db inv p).2.headers.get ⟨i, hj⟩)) := by
  unfold update_invoice_header at hs ⊢
  by_cases h0 : patchSetCount p = 0
  · rw [if_pos h0] at hs
    exact absurd hs (by simp)
  · rw [if_neg h0] at hs ⊢
    by_cases h1 : (db.headers.any (fun r => r.invoice_no == inv) &&
        (p.date == some none || p.customer_name == some none)) = true
    · rw [if_pos h1] at hs
      exact absurd hs (by simp)
    · rw [if_neg h1] at hs ⊢
      refine ⟨rfl, by simp, ?_⟩
      intro i hi hj
      constructor
      · intro hne
        simp only [List.get_eq_getElem] at hne
        simp [List.getElem_map, hne]
      · intro heq
        simp only [List.get_eq_getElem] at heq
        simp [List.getElem_map, heq, PatchSpec, applyPatch]

/-- Witness for C7 at a concrete input: patching only `customer_name` of
the stored header `"A"` succeeds and leaves the line items untouched. -/
theorem update_invoice_header_patch_spec_witness :
    (update_invoice_header singleHeaderDB "A" patchCustomerX).1 = true
    ∧ (update_invoice_header singleHeaderDB "A" patchCustomerX).2.items
        = singleHeaderDB.items :=
  ⟨by decide,
   (update_invoice_header_patch_spec singleHeaderDB "A" patchCustomerX (by decide)).1⟩

/-- Scanning a list with no digit finds no split point. -/
lemma splitAtFirstDigit_of_no_digit (l : List Char)
    (h : ∀ c ∈ l, ¬ c.isDigit = true) : splitAtFirstDigit l = (l, []) := by
  induction l with
  | nil => rfl
  | cons c cs ih =>
    have hc : c.isDigit = false := by
      have := h c (List.mem_cons_self c cs)
      simpa using this
    simp only [splitAtFirstDigit, hc, Bool.false_eq_true, if_false]
    rw [ih (fun x hx => h x (List.mem_cons_of_mem c hx))]

/-- Scanning a digit-free prefix followed by a nonempty digit run splits
exactly between the two. -/
lemma splitAtFirstDigit_append (p d : List Char)
    (hp : ∀ c ∈ p, ¬ c.isDigit = true) (hd0 : d ≠ [])
    (hd : ∀ c ∈ d, c.isDigit = true) : splitAtFirstDigit (p ++ d) = (p, d) := by
  induction p with
  | nil =>
    simp only [List.nil_append]
    cases d with
    | nil => exact absurd rfl hd0
    | cons c cs =>
      have hc : c.isDigit = true := hd c (List.mem_cons_self c cs)
      simp [splitAtFirstDigit, hc]
  | cons c cs ih =>
    have hc : c.isDigit = false := by
      have := hp c (List.mem_cons_self c cs)
      simpa using this
    have ih2 := ih (fun x hx => hp x (List.mem_cons_of_mem c hx))
    simp only [List.cons_append, splitAtFirstDigit, hc, Bool.false_eq_true, if_false,
      List.append_eq]
    rw [ih2]

/-- **C6.** `_generate_next_invoice_no` never throws (it is a total
function of the previous maximum) and behaves as specified: a previous
maximum made of a digit-free prefix followed by digits is incremented in
its numeric suffix, re-zero-padded to the original width with the prefix
preserved (a purely numeric previous maximum is the special case of an
empty prefix, incremented and zero-padded to the original string length);
a previous maximum in which no numeric suffix can be located yields the
fixed fallback `"001"`, as do an empty table (previous maximum `None`) and
an empty string; concretely, `"INV005"` yields `"INV006"` and `"002"`
yields `"003"`. -/
theorem generate_next_invoice_no_spec (p d : List Char) (s : String)
    (hp : ∀ c ∈ p, ¬ c.isDigit = true) (hd0 : d ≠ [])
    (hd : ∀ c ∈ d, c.isDigit = true)
    (hs : ∀ c ∈ s.toList, ¬ c.isDigit = true) :
    generate_next_invoice_no (some (String.mk (p ++ d)))
      = String.mk p ++ zfill d.length (Nat.repr (digitsToNat d + 1))
    ∧ generate_next_invoice_no (some s) = "001"
    ∧ generate_next_invoice_no none = "001"
    ∧ generate_next_invoice_no (some "INV005") = "INV006"
    ∧ generate_next_invoice_no (some "002") = "003"
    ∧ generate_next_invoice_no (some "") = "001" := by
  refine ⟨?_, ?_, rfl, by decide, by decide, rfl⟩
  · have hne : String.mk (p ++ d) ≠ "" := by
      intro h
      have hdata : p ++ d = ([] : List Char) := congrArg String.data h
      exact hd0 (List.append_eq_nil.mp hdata).2
    have hempty : (String.mk (p ++ d)).isEmpty = false := by
      rw [Bool.eq_false_iff]
      intro h
      exact hne ((String.isEmpty_iff _).mp h)
    have hsplit : splitAtFirstDigit ((String.mk (p ++ d)).toList) = (p, d) :=
      splitAtFirstDigit_append p d hp hd0 hd
    have hall : d.all Char.isDigit = true := List.all_eq_true.mpr hd
    have hdemp : d.isEmpty = false := by
      cases d with
      | nil => exact absurd rfl hd0
      | cons c cs => rfl
    simp only [generate_next_invoice_no, hempty, Bool.false_eq_true, if_false,
      hsplit]
    simp [hdemp, hall]
  · by_cases he : s.isEmpty = true
    · simp [generate_next_invoice_no, he]
    · have he2 : s.isEmpty = false := by simpa using he
      have hsp : splitAtFirstDigit s.toList = (s.toList, []) :=
        splitAtFirstDigit_of_no_digit s.toList hs
      have hnil : s.toList ≠ [] := by
        intro h
        apply he
        rw [String.isEmpty_iff]
        exact String.ext h
      have hsp2 : splitAtFirstDigit s.data = (s.data, []) := hsp
      have hdig : ¬ ∀ x ∈ s.data, x.isDigit = true := by
        cases h : s.data with
        | nil => exact absurd h hnil
        | cons c cs =>
          intro hall2
          have hcmem : c ∈ s.data := by
            rw [h]
            exact List.mem_cons_self c cs
          exact hs c hcmem (hall2 c (List.mem_cons_self c cs))
      simp [generate_next_invoice_no, he2, hsp2, hdig]

/-- Witness for C6 at a concrete input: the prefix `INV` with the digit
run `005` (giving `INV006`), and the digit-free string `"ABC"` (giving the
fallback `"001"`). -/
theorem generate_next_invoice_no_spec_witness :
    generate_next_invoice_no (some (String.mk (['I', 'N', 'V'] ++ ['0', '0', '5'])))
      = String.mk ['I', 'N', 'V']
        ++ zfill (['0', '0', '5'] : List Char).length
             (Nat.repr (digitsToNat ['0', '0', '5'] + 1))
    ∧ generate_next_invoice_no (some "ABC") = "001" := by
  have h := generate_next_invoice_no_spec ['I', 'N', 'V'] ['0', '0', '5'] "ABC"
    (by decide) (by decide) (by decide) (by decide)
  exact ⟨h.1, h.2.1⟩

/-- Number of attendance rows stored under the unique key
`(worker_id, date)`. -/
def attKeyCount (tbl : List AttRow) (wid : Nat) (d : String) : Nat :=
  tbl.countP (fun row => decide (row.worker_id = wid ∧ row.date = d))

/-- The invariant enforced by `UNIQUE(worker_id, date)` on the
`attendance` table: at most one row per worker per day. -/
def AttInvariant (tbl : List AttRow) : Prop :=
  ∀ wid d, attKeyCount tbl wid d ≤ 1

/-- The DO UPDATE arm of the upsert only rewrites `status` and the punch
times, never the key columns, so every per-key row count is preserved. -/
lemma attKeyCount_upsert_map (tbl : List AttRow) (r : AttRecord) (wid : Nat)
    (d : String) :
    attKeyCount (tbl.map (fun row =>
      if attKeyMatch row r then
        { row with status := r.status, punch_in_time := r.punch_in_time,
                   punch_out_time := r.punch_out_time }
      else row)) wid d = attKeyCount tbl wid d := by
  unfold attKeyCount
  rw [List.countP_map]
  apply List.countP_congr
  intro row hrow
  by_cases hm : attKeyMatch row r = true
  · simp [Function.comp, hm]
  · simp only [Bool.not_eq_true] at hm
    simp [Function.comp, hm]

/-- One upsert step preserves the uniqueness invariant. -/
lemma upsertAttendance_invariant (tbl : List AttRow) (r : AttRecord)
    (hinv : AttInvariant tbl) : AttInvariant (upsertAttendance tbl r) := by
  intro wid d
  unfold upsertAttendance
  by_cases hany : tbl.any (fun row => attKeyMatch row r) = true
  · rw [if_pos hany, attKeyCount_upsert_map]
    exact hinv wid d
  · rw [if_neg hany]
    have hall : ∀ row ∈ tbl, attKeyMatch row r = false := by
      simpa [List.any_eq_false] using hany
    unfold attKeyCount
    rw [List.countP_append]
    by_cases hkey : r.worker_id = wid ∧ r.date = d
    · have hc0 : tbl.countP (fun row => decide (row.worker_id = wid ∧ row.date = d)) = 0 := by
        rw [List.countP_eq_zero]
        intro row hrow hdec
        have hpr : row.worker_id = wid ∧ row.date = d := of_decide_eq_true hdec
        have : attKeyMatch row r = true := by
          unfold attKeyMatch
          exact decide_eq_true ⟨hkey.1 ▸ hpr.1, hkey.2 ▸ hpr.2⟩
        rw [hall row hrow] at this
        exact Bool.false_ne_true this
      rw [hc0]
      simp [List.countP_cons, hkey]
    · have hnew : (decide ((⟨nextAttId tbl, r.worker_id, r.date, r.status,
          r.punch_in_time, r.punch_out_time⟩ : AttRow).worker_id = wid
          ∧ (⟨nextAttId tbl, r.worker_id, r.date, r.status, r.punch_in_time,
              r.punch_out_time⟩ : AttRow).date = d)) = false := by
        simpa using hkey
      simp only [List.countP_cons, List.countP_nil, hnew, Bool.false_eq_true,
        if_false]
      have hb := hinv wid d
      unfold attKeyCount at hb
      omega

/-- After an upsert for record `r`, at least one row with the key of `r`
is stored. -/
lemma upsertAttendance_key_present (tbl : List AttRow) (r : AttRecord) :
    1 ≤ attKeyCount (upsertAttendance tbl r) r.worker_id r.date := by
  unfold upsertAttendance
  by_cases hany : tbl.any (fun row => attKeyMatch row r) = true
  · rw [if_pos hany, attKeyCount_upsert_map]
    obtain ⟨row, hrow, hm⟩ := List.any_eq_true.mp hany
    have : 0 < attKeyCount tbl r.worker_id r.date := by
      unfold attKeyCount
      rw [List.countP_pos_iff]
      exact ⟨row, hrow, hm⟩
    omega
  · rw [if_neg hany]
    unfold attKeyCount
    rw [List.countP_append]
    have hnew : (decide ((⟨nextAttId tbl, r.worker_id, r.date, r.status,
        r.punch_in_time, r.punch_out_time⟩ : AttRow).worker_id = r.worker_id
        ∧ (⟨nextAttId tbl, r.worker_id, r.date, r.status, r.punch_in_time,
            r.punch_out_time⟩ : AttRow).date = r.date)) = true := by
      simp
    simp [List.countP_cons, hnew]

/-- Every stored row carrying the key of the upserted record carries the
upserted field values afterwards. -/
lemma upsertAttendance_fields (tbl : List AttRow) (r : AttRecord) :
    ∀ row ∈ upsertAttendance tbl r, attKeyMatch row r = true →
      row.status = r.status ∧ row.punch_in_time = r.punch_in_time
        ∧ row.punch_out_time = r.punch_out_time := by
  intro row hrow hm
  unfold upsertAttendance at hrow
  by_cases hany : tbl.any (fun row => attKeyMatch row r) = true
  · rw [if_pos hany] at hrow
    obtain ⟨row0, hrow0, hfeq⟩ := List.mem_map.mp hrow
    by_cases hm0 : attKeyMatch row0 r = true
    · rw [if_pos hm0] at hfeq
      rw [← hfeq]
      exact ⟨rfl, rfl, rfl⟩
    · rw [if_neg hm0] at hfeq
      rw [← hfeq] at hm
      exact absurd hm hm0
  · rw [if_neg hany] at hrow
    have hall : ∀ row ∈ tbl, attKeyMatch row r = false := by
      simpa [List.any_eq_false] using hany
    rcases List.mem_append.mp hrow with hmem | hmem
    · rw [hall row hmem] at hm
      exact absurd hm Bool.false_ne_true
    · have : row = ⟨nextAttId tbl, r.worker_id, r.date, r.status,
          r.punch_in_time, r.punch_out_time⟩ := by simpa using hmem
      rw [this]
      exact ⟨rfl, rfl, rfl⟩

/-- A whole batch preserves the uniqueness invariant. -/
lemma foldl_upsert_invariant (rs : List AttRecord) (tbl : List AttRow)
    (hinv : AttInvariant tbl) : AttInvariant (rs.foldl upsertAttendance tbl) := by
  induction rs generalizing tbl with
  | nil => exact hinv
  | cons r rest ih => exact ih _ (upsertAttendance_invariant tbl r hinv)

/-- **C4.** Every successful `save_attendance_records` call preserves the
at-most-one-row-per-`(worker_id, date)` invariant, and saving two records
in succession for the same `(worker_id, date)` leaves exactly one stored
row for that key, whose `status`, `punch_in_time` and `punch_out_time`
equal the values of the most recently saved record. -/
theorem save_attendance_records_upsert (tbl : List AttRow) (rs : List AttRecord)
    (r1 r2 : AttRecord) (hinv : AttInvariant tbl)
    (_hw : r1.worker_id = r2.worker_id) (_hd : r1.date = r2.date) :
    (save_attendance_records tbl rs).1 = true
    ∧ AttInvariant (save_attendance_records tbl rs).2
    ∧ attKeyCount
        (save_attendance_records (save_attendance_records tbl [r1]).2 [r2]).2
        r2.worker_id r2.date = 1
    ∧ ∀ row ∈ (save_attendance_records (save_attendance_records tbl [r1]).2 [r2]).2,
        row.worker_id = r2.worker_id → row.date = r2.date →
        row.status = r2.status ∧ row.punch_in_time = r2.punch_in_time
          ∧ row.punch_out_time = r2.punch_out_time := by
  have hstate : (save_attendance_records (save_attendance_records tbl [r1]).2 [r2]).2
      = upsertAttendance (upsertAttendance tbl r1) r2 := rfl
  have hinv2 : AttInvariant (upsertAttendance (upsertAttendance tbl r1) r2) :=
    upsertAttendance_invariant _ r2 (upsertAttendance_invariant tbl r1 hinv)
  refine ⟨rfl, foldl_upsert_invariant rs tbl hinv, ?_, ?_⟩
  · rw [hstate]
    have hge := upsertAttendance_key_present (upsertAttendance tbl r1) r2
    have hle := hinv2 r2.worker_id r2.date
    omega
  · rw [hstate]
    intro row hrow hwid hdate
    exact upsertAttendance_fields (upsertAttendance tbl r1) r2 row hrow
      (decide_eq_true ⟨hwid, hdate⟩)

/-- Witness for C4 at a concrete input: an empty table and two saves for
worker 1 on 2024-07-01, the second of which overwrites the first. -/
theorem save_attendance_records_upsert_witness :
    attKeyCount
      (save_attendance_records
        (save_attendance_records []
          [{ worker_id := 1, date := "2024-07-01", status := "Present",
             punch_in_time := some "09:00", punch_out_time := some "17:00" }]).2
        [{ worker_id := 1, date := "2024-07-01", status := "Absent",
           punch_in_time := some "", punch_out_time := some "" }]).2
      1 "2024-07-01" = 1 :=
  (save_attendance_records_upsert [] []
    { worker_id := 1, date := "2024-07-01", status := "Present",
      punch_in_time := some "09:00", punch_out_time := some "17:00" }
    { worker_id := 1, date := "2024-07-01", status := "Absent",
      punch_in_time := some "", punch_out_time := some "" }
    (fun wid d => by simp [attKeyCount]) rfl rfl).2.2.1

/-- The boolean comparison used by the range filters agrees with the
`String` order. -/
lemma sqlTextLe_iff (a b : String) : sqlTextLe a b = true ↔ a ≤ b := by
  unfold sqlTextLe
  rw [decide_eq_true_eq]
  exact (String.le_iff_toList_le).symm

/-- Membership characterization of `get_all_ot_records_in_range`: the
`ORDER BY` only permutes the filtered rows. -/
lemma mem_get_all_ot_iff (tbl : List OTRow) (s e : String) (r : OTRow) :
    r ∈ get_all_ot_records_in_range tbl s e
      ↔ r ∈ tbl ∧ (s ≤ r.date ∧ r.date ≤ e) := by
  unfold get_all_ot_records_in_range
  rw [List.Perm.mem_iff (List.mergeSort_perm _ _), List.mem_filter,
    Bool.and_eq_true, sqlTextLe_iff, sqlTextLe_iff]

/-- Membership characterization of `get_ot_records_for_worker_in_range`. -/
lemma mem_get_worker_ot_iff (tbl : List OTRow) (wid : Nat) (s e : String)
    (r : OTRow) :
    r ∈ get_ot_records_for_worker_in_range tbl wid s e
      ↔ r ∈ tbl ∧ r.worker_id = wid ∧ (s ≤ r.date ∧ r.date ≤ e) := by
  unfold get_ot_records_for_worker_in_range
  rw [List.Perm.mem_iff (List.mergeSort_perm _ _), List.mem_filter,
    Bool.and_eq_true, Bool.and_eq_true, beq_iff_eq, sqlTextLe_iff, sqlTextLe_iff,
    and_assoc]

/-- **C8.** The overtime range queries are inclusive on both bounds
(SQLite `BETWEEN`): a stored entry dated exactly `start_date` or exactly
`end_date` appears in the result of `get_all_ot_records_in_range` (and of
`get_ot_records_for_worker_in_range` when its worker matches), while an
entry dated strictly before `start_date` or strictly after `end_date` is
excluded from both. -/
theorem ot_range_queries_inclusive_bounds (tbl : List OTRow) (wid : Nat)
    (s e : String) (r : OTRow) (hse : s ≤ e) :
    ((r.date = s ∨ r.date = e) → r ∈ tbl →
      (r ∈ get_all_ot_records_in_range tbl s e
       ∧ (r.worker_id = wid → r ∈ get_ot_records_for_worker_in_range tbl wid s e)))
    ∧ ((r.date < s ∨ e < r.date) →
      (r ∉ get_all_ot_records_in_range tbl s e
       ∧ r ∉ get_ot_records_for_worker_in_range tbl wid s e)) := by
  constructor
  · intro hdate hmem
    have hbound : s ≤ r.date ∧ r.date ≤ e := by
      rcases hdate with h | h
      · rw [h]
        exact ⟨le_refl s, hse⟩
      · rw [h]
        exact ⟨hse, le_refl e⟩
    refine ⟨(mem_get_all_ot_iff tbl s e r).mpr ⟨hmem, hbound⟩, ?_⟩
    intro hwid
    exact (mem_get_worker_ot_iff tbl wid s e r).mpr ⟨hmem, hwid, hbound⟩
  · intro hout
    have hnb : ¬ (s ≤ r.date ∧ r.date ≤ e) := by
      rcases hout with h | h
      · exact fun hb => absurd hb.1 (not_le.mpr h)
      · exact fun hb => absurd hb.2 (not_le.mpr h)
    constructor
    · intro hmem
      exact hnb ((mem_get_all_ot_iff tbl s e r).mp hmem).2
    · intro hmem
      exact hnb ((mem_get_worker_ot_iff tbl wid s e r).mp hmem).2.2

/-- Witness for C8 at a concrete input: an entry dated exactly on the
start bound of the queried range is returned. -/
theorem ot_range_queries_inclusive_bounds_witness :
    sampleOTRow 1 1 "2024-07-01" ∈ get_all_ot_records_in_range
      [sampleOTRow 1 1 "2024-07-01", sampleOTRow 2 2 "2024-07-15",
       sampleOTRow 3 1 "2024-08-01"] "2024-07-01" "2024-07-15" :=
  ((ot_range_queries_inclusive_bounds
      [sampleOTRow 1 1 "2024-07-01", sampleOTRow 2 2 "2024-07-15",
       sampleOTRow 3 1 "2024-08-01"] 1 "2024-07-01" "2024-07-15"
      (sampleOTRow 1 1 "2024-07-01")
      (String.le_iff_toList_le.mpr (by decide))).1 (Or.inl rfl) (by decide)).1

end SriramERP
